import Mathlib

/-!
# Verification of the Whisper Transcription Service

Shallow embedding of `src/services/whisper/main.py`, a FastAPI microservice
wrapping the faster-whisper inference engine.  The service exposes
`GET /health` and `POST /transcribe`.

Embedding choices:
* Python floats are modelled as exact rationals (`ℚ`); Python's `round(x, 3)`
  (round half to even, i.e. banker's rounding) is modelled by `round3`.
* Python's `str.strip()` is modelled by `pyStrip` (drop whitespace from both
  ends of the character list); `" ".join(parts)` by `String.intercalate " "`.
* The third-party call `model.transcribe(...)` is a parameter
  `backend : ModelCallArgs → Except String (List RawSegment × TranscriptionInfo)`:
  it either raises (an exception whose `str(e)` is the `String`) or yields the
  segment sequence together with summary info.  The generator's elements are
  consumed inside the `try` block, so a raise anywhere during iteration is
  modelled by the `Except.error` case covering the whole call.
* `segment.words` is `Optional[List[Word]]` in faster-whisper; the Python
  truthiness test `if segment.words:` fails both for `None` and for an empty
  list, which `pyTruthyWords` captures.
* The module globals `MODEL_SIZE`/`DEVICE`/`COMPUTE_TYPE` (read once from the
  environment) and the model handle are modelled by `ServiceState`; the request
  handlers never assign to any module global (the handler body only reads
  `model`), which is why the state-passing wrappers return the state unchanged.
* `HTTPException(status_code=c, detail=d)` raised from a handler is the
  framework's way of producing an error response, modelled by
  `HttpResult.httpError c d`.
* `Path(p).exists()` is modelled by the ambient predicate
  `fileExists : String → Bool`; it tests bare existence of a filesystem object
  (it is also true for directories and unreadable files).
-/

/-- Python `str.strip()`: remove whitespace from both ends. -/
def pyStrip (s : String) : String :=
  ⟨(((s.data.dropWhile Char.isWhitespace).reverse).dropWhile Char.isWhitespace).reverse⟩

/-- Round half to even to an integer (Python's `round(x)` on exact values). -/
def rte (x : ℚ) : ℤ :=
  if x - (Int.floor x : ℚ) < 1/2 then Int.floor x
  else if (1:ℚ)/2 < x - (Int.floor x : ℚ) then Int.floor x + 1
  else if Int.floor x % 2 = 0 then Int.floor x else Int.floor x + 1

/-- Python `round(x, 3)`: round to 3 decimal places, half to even. -/
def round3 (x : ℚ) : ℚ := (rte (x * 1000) : ℚ) / 1000

/-- A rational is "rounded to exactly 3 decimal places": an integer number of
thousandths. -/
def isMillis (q : ℚ) : Prop := ∃ n : ℤ, q = (n : ℚ) / 1000

/-- One word of a raw faster-whisper segment (fields `word`, `start`, `end`,
`probability`). -/
structure RawWord where
  word : String
  start : ℚ
  «end» : ℚ
  probability : ℚ
deriving DecidableEq

/-- One raw segment yielded by `model.transcribe` (fields `id`, `text`,
`start`, `end`, `words`; `words` is `Optional[List[Word]]`). -/
structure RawSegment where
  id : ℤ
  text : String
  start : ℚ
  «end» : ℚ
  words : Option (List RawWord)
deriving DecidableEq

/-- The `info` object returned by `model.transcribe` (fields used:
`language`, `duration`). -/
structure TranscriptionInfo where
  language : String
  duration : ℚ
deriving DecidableEq

/-- Pydantic model `WordTiming`. -/
structure WordTiming where
  word : String
  start : ℚ
  «end» : ℚ
  probability : ℚ
deriving DecidableEq

/-- Pydantic model `SegmentTiming`. -/
structure SegmentTiming where
  id : ℤ
  text : String
  start : ℚ
  «end» : ℚ
  words : List WordTiming
deriving DecidableEq

/-- Pydantic model `TranscribeResponse`. -/
structure TranscribeResponse where
  text : String
  language : String
  duration : ℚ
  segments : List SegmentTiming
  words : List WordTiming
deriving DecidableEq

/-- Pydantic model `TranscribeRequest` after body validation:
`language: Optional[str] = Field(default="en")`, so the field is `some "en"`
when omitted but may be an explicit `none` (JSON null). -/
structure TranscribeRequest where
  audio_path : String
  language : Option String
deriving DecidableEq

/-- Pydantic body parsing of `TranscribeRequest`: `languageField = none` means
the JSON key was omitted, in which case the declared default `"en"` applies;
`some v` means the key was present with value `v` (possibly null). -/
def parseRequest (audio_path : String) (languageField : Option (Option String)) :
    TranscribeRequest :=
  ⟨audio_path, languageField.getD (some "en")⟩

/-- The arguments the handler passes to `model.transcribe`. -/
structure ModelCallArgs where
  path : String
  language : Option String
  word_timestamps : Bool
  vad_filter : Bool
deriving DecidableEq

/-- `model.transcribe(str(audio_path), language=request.language,
word_timestamps=True, vad_filter=True)`. -/
def transcribeCallArgs (req : TranscribeRequest) : ModelCallArgs :=
  ⟨req.audio_path, req.language, true, true⟩

/-- Module-level configuration, read once from the environment at boot. -/
structure Config where
  MODEL_SIZE : String
  DEVICE : String
  COMPUTE_TYPE : String
deriving DecidableEq

/-- Body of the `/health` response. -/
structure HealthResponse where
  status : String
  model : String
  device : String
  compute_type : String
deriving DecidableEq

/-- Process-wide state visible to a handler: the configuration globals, whether
the global `model` handle is non-`None`, and the ambient filesystem
(`Path(p).exists()`). -/
structure ServiceState where
  config : Config
  modelLoaded : Bool
  fileExists : String → Bool

/-- Outcome of a request handler: a 200 payload, or an `HTTPException` with a
status code and detail string. -/
inductive HttpResult (α : Type) where
  | ok (value : α)
  | httpError (status : Nat) (detail : String)
deriving DecidableEq

/-- The backend transcription routine: either raises (message `str(e)`) or
yields the segments and the summary info. -/
def Backend : Type :=
  ModelCallArgs → Except String (List RawSegment × TranscriptionInfo)

/-- Python truthiness of `segment.words` (`Optional[List[Word]]`): falsy for
`None` and for the empty list. -/
def pyTruthyWords : Option (List RawWord) → Bool
  | none => false
  | some l => !l.isEmpty

/-- The `WordTiming(...)` built for one raw word in the loop body. -/
def processWord (w : RawWord) : WordTiming :=
  { word := pyStrip w.word
    start := round3 w.start
    «end» := round3 w.«end»
    probability := round3 w.probability }

/-- The `segment_words` list accumulated for one segment: one `WordTiming` per
raw word when `segment.words` is truthy, otherwise empty. -/
def segmentWords (seg : RawSegment) : List WordTiming :=
  if pyTruthyWords seg.words then (seg.words.getD []).map processWord else []

/-- The `SegmentTiming(...)` appended for one raw segment. -/
def processSegment (seg : RawSegment) : SegmentTiming :=
  { id := seg.id
    text := pyStrip seg.text
    start := round3 seg.start
    «end» := round3 seg.«end»
    words := segmentWords seg }

/-- The `TranscribeResponse` assembled from the consumed segments and the
summary info: `full_text = " ".join(stripped parts)`, segment list in yield
order, `all_words` the concatenation of the per-segment word lists. -/
def buildResponse (segs : List RawSegment) (info : TranscriptionInfo) :
    TranscribeResponse :=
  { text := String.intercalate " " (segs.map (fun s => pyStrip s.text))
    language := info.language
    duration := round3 info.duration
    segments := segs.map processSegment
    words := (segs.map segmentWords).flatten }

/-- The `/transcribe` handler: 503 if the model handle is `None`, 404 naming
the path if `Path(audio_path).exists()` is false, otherwise call the backend
inside `try`; an exception becomes a 500 whose detail is `str(e)`. -/
def transcribe (s : ServiceState) (backend : Backend) (req : TranscribeRequest) :
    HttpResult TranscribeResponse :=
  if s.modelLoaded = false then
    HttpResult.httpError 503 "Model not loaded"
  else if s.fileExists req.audio_path = false then
    HttpResult.httpError 404 ("Audio file not found: " ++ req.audio_path)
  else
    match backend (transcribeCallArgs req) with
    | Except.error e => HttpResult.httpError 500 e
    | Except.ok (segs, info) => HttpResult.ok (buildResponse segs info)

/-- The `/health` handler. -/
def health_check (cfg : Config) : HealthResponse :=
  { status := "healthy"
    model := cfg.MODEL_SIZE
    device := cfg.DEVICE
    compute_type := cfg.COMPUTE_TYPE }

/-- State-passing form of the `/health` handler: the handler reads the
configuration globals and assigns nothing. -/
def handleHealth (s : ServiceState) : HealthResponse × ServiceState :=
  (health_check s.config, s)

/-- State-passing form of the `/transcribe` handler: the handler body declares
`global model` but never assigns to it or to any other module global, so the
service state is returned unchanged and the process stays up whatever the
result. -/
def handleTranscribe (backend : Backend) (req : TranscribeRequest)
    (s : ServiceState) : HttpResult TranscribeResponse × ServiceState :=
  (transcribe s backend req, s)

/-- Sequentially process a list of `/transcribe` requests, threading the
service state. -/
def runRequests (backend : Backend) (reqs : List TranscribeRequest)
    (s : ServiceState) : ServiceState :=
  reqs.foldl (fun st r => (handleTranscribe backend r st).2) s

/-- Validity of one raw word as produced by a speech model: times are
non-negative and ordered, the confidence is a probability. -/
def RawWord.WellFormed (w : RawWord) : Prop :=
  0 ≤ w.start ∧ w.start ≤ w.«end» ∧ 0 ≤ w.probability ∧ w.probability ≤ 1

instance (w : RawWord) : Decidable w.WellFormed := by
  unfold RawWord.WellFormed; infer_instance

/-- Validity of one raw segment as produced by a speech model. -/
def RawSegment.WellFormed (s : RawSegment) : Prop :=
  0 ≤ s.start ∧ s.start ≤ s.«end» ∧ ∀ w ∈ s.words.getD [], w.WellFormed

instance (s : RawSegment) : Decidable s.WellFormed := by
  unfold RawSegment.WellFormed; infer_instance

/-! ## Arithmetic facts about the rounding function -/

theorem rte_floor_le (x : ℚ) : Int.floor x ≤ rte x := by
  unfold rte; split_ifs <;> omega

theorem rte_le_floor_add_one (x : ℚ) : rte x ≤ Int.floor x + 1 := by
  unfold rte; split_ifs <;> omega

theorem rte_mono {x y : ℚ} (h : x ≤ y) : rte x ≤ rte y := by
  have hf : Int.floor x ≤ Int.floor y := Int.floor_mono h
  rcases lt_or_eq_of_le hf with hlt | heq
  · calc rte x ≤ Int.floor x + 1 := rte_le_floor_add_one x
      _ ≤ Int.floor y := by omega
      _ ≤ rte y := rte_floor_le y
  · unfold rte
    rw [← heq]
    split_ifs <;> first | omega | linarith

theorem rte_intCast (n : ℤ) : rte (n : ℚ) = n := by
  unfold rte
  rw [Int.floor_intCast]
  have h : (n : ℚ) - (n : ℚ) = 0 := by ring
  rw [h]
  norm_num

theorem round3_mono {x y : ℚ} (h : x ≤ y) : round3 x ≤ round3 y := by
  unfold round3
  have h2 : rte (x * 1000) ≤ rte (y * 1000) := rte_mono (by linarith)
  have h3 : ((rte (x * 1000) : ℤ) : ℚ) ≤ ((rte (y * 1000) : ℤ) : ℚ) := by
    exact_mod_cast h2
  gcongr

theorem round3_nonneg {x : ℚ} (h : 0 ≤ x) : 0 ≤ round3 x := by
  have h0 : round3 0 = 0 := by
    unfold round3
    have : (0 : ℚ) * 1000 = ((0 : ℤ) : ℚ) := by norm_num
    rw [this, rte_intCast]
    norm_num
  calc (0:ℚ) = round3 0 := h0.symm
    _ ≤ round3 x := round3_mono h

theorem round3_le_one {x : ℚ} (h : x ≤ 1) : round3 x ≤ 1 := by
  have h1 : round3 1 = 1 := by
    unfold round3
    have : (1 : ℚ) * 1000 = ((1000 : ℤ) : ℚ) := by norm_num
    rw [this, rte_intCast]
    norm_num
  calc round3 x ≤ round3 1 := round3_mono h
    _ = 1 := h1

theorem round3_isMillis (x : ℚ) : isMillis (round3 x) :=
  ⟨rte (x * 1000), rfl⟩

/-! ## Structural facts about the handler -/

theorem segmentWords_eq (seg : RawSegment) :
    segmentWords seg = (seg.words.getD []).map processWord := by
  unfold segmentWords
  rcases hw : seg.words with _ | l
  · simp [pyTruthyWords]
  · by_cases hl : l = []
    · subst hl; simp [pyTruthyWords]
    · simp [pyTruthyWords, hl]

theorem transcribe_ok_iff {s : ServiceState} {backend : Backend}
    {req : TranscribeRequest} {resp : TranscribeResponse} :
    transcribe s backend req = HttpResult.ok resp ↔
      s.modelLoaded = true ∧ s.fileExists req.audio_path = true ∧
      ∃ segs info, backend (transcribeCallArgs req) = Except.ok (segs, info) ∧
        resp = buildResponse segs info := by
  unfold transcribe
  rcases hm : s.modelLoaded with _ | _
  · simp [hm]
  · rcases hf : s.fileExists req.audio_path with _ | _
    · simp [hm, hf]
    · rcases hb : backend (transcribeCallArgs req) with e | ⟨segs, info⟩
      · simp [hm, hf, hb]
      · simp [hm, hf, hb]
        constructor
        · rintro rfl
          exact ⟨segs, info, ⟨rfl, rfl⟩, rfl⟩
        · rintro ⟨s', i', ⟨rfl, rfl⟩, h⟩
          exact h.symm

theorem transcribe_backend_error (s : ServiceState) (backend : Backend)
    (req : TranscribeRequest) (msg : String)
    (hm : s.modelLoaded = true) (hf : s.fileExists req.audio_path = true)
    (hb : backend (transcribeCallArgs req) = Except.error msg) :
    transcribe s backend req = HttpResult.httpError 500 msg := by
  unfold transcribe
  have hm' : ¬ (s.modelLoaded = false) := by simp [hm]
  have hf' : ¬ (s.fileExists req.audio_path = false) := by simp [hf]
  rw [if_neg hm', if_neg hf', hb]

theorem runRequests_eq (backend : Backend) (reqs : List TranscribeRequest)
    (s : ServiceState) : runRequests backend reqs s = s := by
  induction reqs with
  | nil => rfl
  | cons r rs ih => exact ih

/-! ## Claim theorems -/

/-- C1: in every successful `/transcribe` response, the flattened word list is
the concatenation, in segment order and within each segment in word order, of
the per-segment word lists; its length is the sum of the per-segment lengths,
and every word of a segment's word list appears identically in it. -/
theorem transcribe_words_flattened
    (s : ServiceState) (backend : Backend) (req : TranscribeRequest)
    (resp : TranscribeResponse)
    (h : transcribe s backend req = HttpResult.ok resp) :
    resp.words = (resp.segments.map SegmentTiming.words).flatten ∧
    resp.words.length = (resp.segments.map (fun seg => seg.words.length)).sum ∧
    ∀ seg ∈ resp.segments, ∀ w ∈ seg.words, w ∈ resp.words := by
  obtain ⟨-, -, segs, info, -, rfl⟩ := transcribe_ok_iff.mp h
  have hflat : (buildResponse segs info).words
      = ((buildResponse segs info).segments.map SegmentTiming.words).flatten := by
    show (segs.map segmentWords).flatten
        = ((segs.map processSegment).map SegmentTiming.words).flatten
    rw [List.map_map]
    rfl
  refine ⟨hflat, ?_, ?_⟩
  · rw [hflat, List.length_flatten, List.map_map]
    rfl
  · intro seg hseg w hw
    rw [hflat]
    exact List.mem_flatten.mpr ⟨seg.words, List.mem_map_of_mem _ hseg, hw⟩

/-- C2: in every successful `/transcribe` response, `text` is the per-segment
stripped texts, in segment order, joined by single spaces. -/
theorem transcribe_text_joined
    (s : ServiceState) (backend : Backend) (req : TranscribeRequest)
    (resp : TranscribeResponse)
    (h : transcribe s backend req = HttpResult.ok resp) :
    resp.text = String.intercalate " " (resp.segments.map SegmentTiming.text) := by
  obtain ⟨-, -, segs, info, -, rfl⟩ := transcribe_ok_iff.mp h
  show String.intercalate " " (segs.map (fun sg => pyStrip sg.text))
      = String.intercalate " " ((segs.map processSegment).map SegmentTiming.text)
  rw [List.map_map]
  rfl

/-- C3: precondition checks run in order: a missing model handle yields 503,
otherwise a missing file yields 404 whose detail is a prefix followed by the
given path; in both cases the result is the same for every backend, so the
model is never invoked. -/
theorem transcribe_precondition_order
    (s : ServiceState) (b₁ b₂ : Backend) (req : TranscribeRequest) :
    (s.modelLoaded = false →
      transcribe s b₁ req = HttpResult.httpError 503 "Model not loaded" ∧
      transcribe s b₁ req = transcribe s b₂ req) ∧
    (s.modelLoaded = true → s.fileExists req.audio_path = false →
      transcribe s b₁ req
        = HttpResult.httpError 404 ("Audio file not found: " ++ req.audio_path) ∧
      (∃ pre, "Audio file not found: " ++ req.audio_path = pre ++ req.audio_path) ∧
      transcribe s b₁ req = transcribe s b₂ req) := by
  constructor
  · intro hm
    unfold transcribe
    rw [if_pos hm, if_pos hm]
    exact ⟨rfl, rfl⟩
  · intro hm hf
    have hm' : ¬ (s.modelLoaded = false) := by simp [hm]
    unfold transcribe
    rw [if_neg hm', if_pos hf, if_neg hm', if_pos hf]
    exact ⟨rfl, ⟨"Audio file not found: ", rfl⟩, rfl⟩

/-- C5: once both precondition checks pass, a backend exception is caught and
surfaced as a 500 whose detail is the exception's message; no success payload
is returned, and the service state is unchanged (the process stays up). -/
theorem transcribe_internal_error
    (s : ServiceState) (backend : Backend) (req : TranscribeRequest) (msg : String)
    (hm : s.modelLoaded = true) (hf : s.fileExists req.audio_path = true)
    (hb : backend (transcribeCallArgs req) = Except.error msg) :
    (handleTranscribe backend req s).1 = HttpResult.httpError 500 msg ∧
    (∀ resp : TranscribeResponse,
      (handleTranscribe backend req s).1 ≠ HttpResult.ok resp) ∧
    (handleTranscribe backend req s).2 = s := by
  have h1 : (handleTranscribe backend req s).1 = HttpResult.httpError 500 msg :=
    transcribe_backend_error s backend req msg hm hf hb
  refine ⟨h1, fun resp hr => ?_, rfl⟩
  rw [h1] at hr
  exact HttpResult.noConfusion hr

/-- C6: the backend routine is always invoked with `word_timestamps=True` and
`vad_filter=True`, on the request's path with the request's language; a body
whose language key is omitted parses to the default hint `"en"`. -/
theorem transcribe_call_configuration (req : TranscribeRequest) (path : String) :
    (transcribeCallArgs req).word_timestamps = true ∧
    (transcribeCallArgs req).vad_filter = true ∧
    (transcribeCallArgs req).path = req.audio_path ∧
    (transcribeCallArgs req).language = req.language ∧
    (transcribeCallArgs (parseRequest path none)).language = some "en" :=
  ⟨rfl, rfl, rfl, rfl, rfl⟩

/-- C7: two `/transcribe` invocations with identical inputs whose backends
return the same output (a deterministic model) produce identical responses. -/
theorem transcribe_deterministic
    (s : ServiceState) (b₁ b₂ : Backend) (req : TranscribeRequest)
    (h : b₁ (transcribeCallArgs req) = b₂ (transcribeCallArgs req)) :
    transcribe s b₁ req = transcribe s b₂ req := by
  unfold transcribe
  rw [h]

/-- C8: `/health` returns the fixed status `"healthy"` with the configured
model, device and compute-precision values, and after any sequence of
interleaved `/transcribe` requests the state and the health payload are
unchanged. -/
theorem health_config_frame (backend : Backend) (reqs : List TranscribeRequest)
    (s : ServiceState) :
    (handleHealth (runRequests backend reqs s)).1
      = { status := "healthy", model := s.config.MODEL_SIZE,
          device := s.config.DEVICE, compute_type := s.config.COMPUTE_TYPE } ∧
    (handleHealth (runRequests backend reqs s)).1 = (handleHealth s).1 ∧
    (handleHealth (runRequests backend reqs s)).2 = s := by
  rw [runRequests_eq]
  exact ⟨rfl, rfl, rfl⟩

/-- C9: each `SegmentTiming` of a successful response carries exactly the id
supplied by the backend routine for that segment; in particular, if the
backend's ids are sequential from some base then so are the response's. -/
theorem transcribe_segment_ids
    (s : ServiceState) (backend : Backend) (req : TranscribeRequest)
    (resp : TranscribeResponse) (segs : List RawSegment) (info : TranscriptionInfo)
    (hb : backend (transcribeCallArgs req) = Except.ok (segs, info))
    (h : transcribe s backend req = HttpResult.ok resp) :
    resp.segments.map SegmentTiming.id = segs.map RawSegment.id ∧
    ∀ n : ℤ, segs.map RawSegment.id = (List.range segs.length).map (fun i => n + i) →
      resp.segments.map SegmentTiming.id
        = (List.range resp.segments.length).map (fun i => n + i) := by
  obtain ⟨-, -, segs', info', hb', rfl⟩ := transcribe_ok_iff.mp h
  rw [hb] at hb'
  obtain ⟨rfl, rfl⟩ : segs = segs' ∧ info = info' := by
    injection hb' with h''
    injection h'' with ha hbb
    exact ⟨ha, hbb⟩
  have hids : (buildResponse segs info).segments.map SegmentTiming.id
      = segs.map RawSegment.id := by
    show (segs.map processSegment).map SegmentTiming.id = segs.map RawSegment.id
    rw [List.map_map]
    rfl
  have hlen : (buildResponse segs info).segments.length = segs.length := by
    show (segs.map processSegment).length = segs.length
    rw [List.length_map]
  refine ⟨hids, fun n hn => ?_⟩
  rw [hids, hlen]
  exact hn

/-- C10: the not-found check tests bare existence only (`Path.exists()` is
true for directories and unreadable files alike): when the path names an
existing object and the backend raises, the failure is a 500 carrying the
exception message, never a 404. -/
theorem transcribe_existence_only_check
    (s : ServiceState) (backend : Backend) (req : TranscribeRequest) (msg : String)
    (hm : s.modelLoaded = true) (hf : s.fileExists req.audio_path = true)
    (hb : backend (transcribeCallArgs req) = Except.error msg) :
    transcribe s backend req = HttpResult.httpError 500 msg ∧
    ∀ d, transcribe s backend req ≠ HttpResult.httpError 404 d := by
  have h1 : transcribe s backend req = HttpResult.httpError 500 msg :=
    transcribe_backend_error s backend req msg hm hf hb
  refine ⟨h1, fun d hd => ?_⟩
  rw [h1] at hd
  injection hd with hs hdd
  exact absurd hs (by decide)

theorem mem_segmentWords {w : WordTiming} {seg : RawSegment}
    (h : w ∈ segmentWords seg) :
    ∃ r ∈ seg.words.getD [], w = processWord r := by
  rw [segmentWords_eq] at h
  obtain ⟨r, hr, rfl⟩ := List.mem_map.mp h
  exact ⟨r, hr, rfl⟩

/-- C4: in a successful response built from well-formed backend output (times
non-negative and ordered, confidences in `[0,1]` — what a speech model
produces), every `SegmentTiming` and `WordTiming` satisfies
`0 ≤ start ≤ end`, every confidence lies in `[0,1]`, and `start`, `end`,
`probability` and the response's `duration` are all exact multiples of a
thousandth (rounded to exactly 3 decimal places). -/
theorem transcribe_rounding_and_bounds
    (s : ServiceState) (backend : Backend) (req : TranscribeRequest)
    (resp : TranscribeResponse) (segs : List RawSegment) (info : TranscriptionInfo)
    (hb : backend (transcribeCallArgs req) = Except.ok (segs, info))
    (h : transcribe s backend req = HttpResult.ok resp)
    (hwf : ∀ seg ∈ segs, seg.WellFormed) :
    (∀ seg ∈ resp.segments,
      0 ≤ seg.start ∧ seg.start ≤ seg.«end» ∧
      isMillis seg.start ∧ isMillis seg.«end») ∧
    (∀ w ∈ resp.words,
      0 ≤ w.start ∧ w.start ≤ w.«end» ∧
      0 ≤ w.probability ∧ w.probability ≤ 1 ∧
      isMillis w.start ∧ isMillis w.«end» ∧ isMillis w.probability) ∧
    (∀ seg ∈ resp.segments, ∀ w ∈ seg.words,
      0 ≤ w.start ∧ w.start ≤ w.«end» ∧
      0 ≤ w.probability ∧ w.probability ≤ 1 ∧
      isMillis w.start ∧ isMillis w.«end» ∧ isMillis w.probability) ∧
    isMillis resp.duration := by
  obtain ⟨-, -, segs', info', hb', rfl⟩ := transcribe_ok_iff.mp h
  rw [hb] at hb'
  obtain ⟨rfl, rfl⟩ : segs = segs' ∧ info = info' := by
    injection hb' with h''
    injection h'' with ha hbb
    exact ⟨ha, hbb⟩
  have hword : ∀ seg ∈ segs, ∀ w ∈ segmentWords seg,
      0 ≤ w.start ∧ w.start ≤ w.«end» ∧
      0 ≤ w.probability ∧ w.probability ≤ 1 ∧
      isMillis w.start ∧ isMillis w.«end» ∧ isMillis w.probability := by
    intro seg hseg w hw
    obtain ⟨r, hr, rfl⟩ := mem_segmentWords hw
    obtain ⟨-, -, hws⟩ := hwf seg hseg
    obtain ⟨h1, h2, h3, h4⟩ := hws r hr
    exact ⟨round3_nonneg h1, round3_mono h2, round3_nonneg h3, round3_le_one h4,
      round3_isMillis _, round3_isMillis _, round3_isMillis _⟩
  refine ⟨?_, ?_, ?_, round3_isMillis _⟩
  · intro seg hseg
    obtain ⟨r, hr, rfl⟩ := List.mem_map.mp hseg
    obtain ⟨h1, h2, -⟩ := hwf r hr
    exact ⟨round3_nonneg h1, round3_mono h2, round3_isMillis _, round3_isMillis _⟩
  · intro w hw
    obtain ⟨l, hl, hwl⟩ := List.mem_flatten.mp hw
    obtain ⟨seg, hseg, rfl⟩ := List.mem_map.mp hl
    exact hword seg hseg w hwl
  · intro seg hseg w hw
    obtain ⟨r, hr, rfl⟩ := List.mem_map.mp hseg
    exact hword r hr w hw

/-! ## Concrete witness data -/

/-- A service state with the model loaded and the path present. -/
def sW : ServiceState := ⟨⟨"base", "cpu", "int8"⟩, true, fun _ => true⟩

/-- A service state whose model handle is still `None`. -/
def sNoModel : ServiceState := ⟨⟨"base", "cpu", "int8"⟩, false, fun _ => true⟩

/-- A service state where no path exists. -/
def sNoFile : ServiceState := ⟨⟨"base", "cpu", "int8"⟩, true, fun _ => false⟩

/-- A concrete request. -/
def reqW : TranscribeRequest := ⟨"a.wav", some "en"⟩

/-- A concrete raw word from the backend. -/
def rawW : RawWord := ⟨" hi ", 0, 1/4, 9/10⟩

/-- A concrete raw segment from the backend. -/
def rawSegW : RawSegment := ⟨0, " hi ", 0, 1/4, some [rawW]⟩

/-- Concrete summary info from the backend. -/
def infoW : TranscriptionInfo := ⟨"en", 1/2⟩

/-- A deterministic backend yielding one segment with one word. -/
def backendW : Backend := fun _ => Except.ok ([rawSegW], infoW)

/-- The same backend written differently (returns the same output). -/
def backendW₂ : Backend := fun _args => Except.ok ([rawSegW], infoW)

/-- A backend that raises. -/
def backendErr : Backend := fun _ => Except.error "boom"

/-- The response the service produces from `backendW`'s output. -/
def respW : TranscribeResponse := buildResponse [rawSegW] infoW

theorem rawSegW_wf : ∀ seg ∈ [rawSegW], seg.WellFormed := by
  intro seg hseg
  simp only [List.mem_singleton] at hseg
  subst hseg
  refine ⟨by norm_num [rawSegW], by norm_num [rawSegW], ?_⟩
  intro w hw
  simp only [rawSegW, Option.getD, List.mem_singleton] at hw
  subst hw
  refine ⟨by norm_num [rawW], by norm_num [rawW], by norm_num [rawW], by norm_num [rawW]⟩

/-! ## Witnesses -/

/-- Witness for C1 at a concrete request. -/
theorem transcribe_words_flattened_witness :
    transcribe sW backendW reqW = HttpResult.ok respW ∧
    (respW.words = (respW.segments.map SegmentTiming.words).flatten ∧
     respW.words.length = (respW.segments.map (fun seg => seg.words.length)).sum ∧
     ∀ seg ∈ respW.segments, ∀ w ∈ seg.words, w ∈ respW.words) :=
  ⟨rfl, transcribe_words_flattened sW backendW reqW respW rfl⟩

/-- Witness for C2 at a concrete request. -/
theorem transcribe_text_joined_witness :
    transcribe sW backendW reqW = HttpResult.ok respW ∧
    respW.text = String.intercalate " " (respW.segments.map SegmentTiming.text) :=
  ⟨rfl, transcribe_text_joined sW backendW reqW respW rfl⟩

/-- Witness for C3: a 503 when the model handle is `None`, a 404 naming the
path when the file is missing. -/
theorem transcribe_precondition_order_witness :
    transcribe sNoModel backendW reqW = HttpResult.httpError 503 "Model not loaded" ∧
    transcribe sNoFile backendW reqW
      = HttpResult.httpError 404 ("Audio file not found: " ++ reqW.audio_path) :=
  ⟨((transcribe_precondition_order sNoModel backendW backendW reqW).1 rfl).1,
   ((transcribe_precondition_order sNoFile backendW backendW reqW).2 rfl rfl).1⟩

/-- Witness for C4 at a concrete well-formed backend output. -/
theorem transcribe_rounding_and_bounds_witness :
    backendW (transcribeCallArgs reqW) = Except.ok ([rawSegW], infoW) ∧
    transcribe sW backendW reqW = HttpResult.ok respW ∧
    (∀ seg ∈ [rawSegW], seg.WellFormed) ∧
    isMillis respW.duration :=
  ⟨rfl, rfl, rawSegW_wf,
   (transcribe_rounding_and_bounds sW backendW reqW respW [rawSegW] infoW rfl
      rfl rawSegW_wf).2.2.2⟩

/-- Witness for C5 at a concrete raising backend. -/
theorem transcribe_internal_error_witness :
    (handleTranscribe backendErr reqW sW).1 = HttpResult.httpError 500 "boom" ∧
    (handleTranscribe backendErr reqW sW).2 = sW :=
  ⟨(transcribe_internal_error sW backendErr reqW "boom" rfl rfl rfl).1,
   (transcribe_internal_error sW backendErr reqW "boom" rfl rfl rfl).2.2⟩

/-- Witness for C7: two syntactically different but extensionally equal
backends give the same response. -/
theorem transcribe_deterministic_witness :
    transcribe sW backendW reqW = transcribe sW backendW₂ reqW :=
  transcribe_deterministic sW backendW backendW₂ reqW rfl

/-- Witness for C9 at a concrete request. -/
theorem transcribe_segment_ids_witness :
    respW.segments.map SegmentTiming.id = [rawSegW].map RawSegment.id :=
  (transcribe_segment_ids sW backendW reqW respW [rawSegW] infoW rfl rfl).1

/-- Witness for C10: an existing path with a raising backend gives 500, not
404. -/
theorem transcribe_existence_only_check_witness :
    transcribe sW backendErr reqW = HttpResult.httpError 500 "boom" ∧
    transcribe sW backendErr reqW ≠ HttpResult.httpError 404 "boom" :=
  ⟨(transcribe_existence_only_check sW backendErr reqW "boom" rfl rfl rfl).1,
   (transcribe_existence_only_check sW backendErr reqW "boom" rfl rfl rfl).2 "boom"⟩

theorem processWord_rawW : processWord rawW = ⟨"hi", 0, 1/4, 9/10⟩ := by
  unfold processWord rawW
  simp only [WordTiming.mk.injEq]
  refine ⟨by decide, ?_, ?_, ?_⟩ <;> (unfold round3 rte) <;> norm_num

theorem segmentWords_rawSegW : segmentWords rawSegW = [⟨"hi", 0, 1/4, 9/10⟩] := by
  rw [segmentWords_eq]
  show List.map processWord [rawW] = _
  rw [List.map_cons, List.map_nil, processWord_rawW]

theorem processSegment_rawSegW :
    processSegment rawSegW = ⟨0, "hi", 0, 1/4, [⟨"hi", 0, 1/4, 9/10⟩]⟩ := by
  unfold processSegment
  simp only [SegmentTiming.mk.injEq]
  refine ⟨rfl, by decide, ?_, ?_, segmentWords_rawSegW⟩ <;>
    (show round3 _ = _) <;> (unfold rawSegW round3 rte) <;> norm_num

/-- The embedding evaluated at the concrete backend output: stripped texts,
times rounded to thousandths, the word flattened into the response. -/
theorem respW_eval :
    respW = { text := "hi", language := "en", duration := 1/2,
              segments := [⟨0, "hi", 0, 1/4, [⟨"hi", 0, 1/4, 9/10⟩]⟩],
              words := [⟨"hi", 0, 1/4, 9/10⟩] } := by
  unfold respW buildResponse
  simp only [TranscribeResponse.mk.injEq, List.map_cons, List.map_nil,
    List.flatten_cons, List.flatten_nil, List.append_nil]
  refine ⟨by decide, rfl, ?_, ?_, segmentWords_rawSegW⟩
  · show round3 infoW.duration = 1/2
    unfold infoW round3 rte
    norm_num
  · rw [processSegment_rawSegW]
